import Mathlib

/-!
Shallow embedding of the Object-Identifier application core
(src/App.tsx, src/services/geminiService.ts).

The React component state, the mutable refs and the effect log are
gathered into one `AppState` record.  Event handlers become state
transition functions.  The two `async` handlers (`handleContainerClick`,
`handleSendMessage`) each contain a single `await` of the remote
reasoning service; they are embedded as two phases: phase 1 is the code
up to the dispatch, phase 2 is the continuation that runs when the
awaited promise settles, parametrised by the service outcome
(`Except String String`).  Interleavings of other events with an
in-flight attempt are expressed by composing phase 1, the other event,
and phase 2.
-/

namespace ObjectIdentifier

/-- The two supported languages (`type Language = 'it-IT' | 'en-US'`). -/
inductive Language where
  | itIT
  | enUS
deriving DecidableEq, Repr

/-- Message sender tags (`sender: 'user' | 'bot' | 'system'`). -/
inductive Sender where
  | user
  | bot
  | system
deriving DecidableEq, Repr

/-- `interface ChatMessage { sender; text }` from App.tsx. -/
structure ChatMessage where
  sender : Sender
  text : String
deriving DecidableEq, Repr

/-- The opaque handle to a remote multi-turn dialogue created by
`ai.chats.create({ model, config: { systemInstruction } })`.
Handles are identified by an allocation counter so that distinctness of
successive handles is expressible. -/
structure ChatSession where
  id : Nat
  systemInstruction : String
deriving DecidableEq, Repr

/-- The whole component state of `App`: React `useState` fields plus the
mutable refs (`streamRef`, `chatRef`, `zoomCapabilitiesRef`,
`pinchStateRef`) and an observable log of text-to-speech calls
(`spoken`), recording each `speak(text, language)` invocation. -/
structure AppState where
  isCameraOn : Bool
  /-- `ballPosition` : top-left anchor of the marker, or `none`. -/
  ballPosition : Option (ℚ × ℚ)
  isIdentifying : Bool
  isSendingMessage : Bool
  chatHistory : List ChatMessage
  error : Option String
  language : Language
  isChatVisible : Bool
  /-- current zoom factor (`useState(1)`). -/
  zoom : ℚ
  /-- whether `streamRef.current` is non-null. -/
  streamOn : Bool
  /-- `chatRef.current`. -/
  chat : Option ChatSession
  /-- allocation counter for fresh session handles. -/
  nextChatId : Nat
  /-- `zoomCapabilitiesRef.current` as (min, max); `step` is never read. -/
  zoomCapabilities : Option (ℚ × ℚ)
  /-- `pinchStateRef.current` as (startDistance, startZoom). -/
  pinchState : Option (ℚ × ℚ)
  /-- log of all `speak` calls so far. -/
  spoken : List String
deriving DecidableEq, Repr

/-- `const BALL_DIAMETER = 64`. -/
def BALL_DIAMETER : ℚ := 64

/-- `const BALL_RADIUS = BALL_DIAMETER / 2`. -/
def BALL_RADIUS : ℚ := BALL_DIAMETER / 2

/-- `const MAX_DIMENSION = 512` inside `handleContainerClick`. -/
def MAX_DIMENSION : Nat := 512

/-- `stopCamera` from App.tsx: stops all tracks, detaches the video sink,
and resets camera flag, marker, chat history, chat ref, chat visibility,
zoom and zoom capabilities. -/
def stopCamera (s : AppState) : AppState :=
  { s with
    streamOn := false
    isCameraOn := false
    ballPosition := none
    chatHistory := []
    chat := none
    isChatVisible := false
    zoom := 1
    zoomCapabilities := none }

/-- `handleLanguageChange`: stops the camera, then switches language. -/
def handleLanguageChange (s : AppState) (l : Language) : AppState :=
  { stopCamera s with language := l }

/-- The initial system message seeded by `startCamera` on success. -/
def initialMessage : Language → String
  | Language.itIT => "Clicca su un oggetto per identificarlo."
  | Language.enUS => "Click on an object to identify it."

/-- The banner text set by `startCamera` when camera access fails. -/
def cameraErrorMessage : Language → String
  | Language.itIT => "Impossibile accedere alla fotocamera. Controlla le autorizzazioni."
  | Language.enUS => "Could not access camera. Please check permissions."

/-- `startCamera` from App.tsx.  It first calls `stopCamera()`, then
awaits `getUserMedia`.  `outcome = none` models the rejection of
`getUserMedia` (catch branch); `outcome = some caps` models success,
where `caps` is the zoom capability range recorded from the video track
(`none` when the device exposes no zoom or the client is not mobile). -/
def startCamera (s : AppState) (outcome : Option (Option (ℚ × ℚ))) : AppState :=
  let s0 := stopCamera s
  match outcome with
  | none =>
    { s0 with
      error := some (cameraErrorMessage s0.language)
      isCameraOn := false }
  | some caps =>
    { s0 with
      streamOn := true
      zoomCapabilities := caps
      zoom := 1
      isCameraOn := true
      error := none
      chatHistory := [⟨Sender.system, initialMessage s0.language⟩] }

/-- `Math.round (num / den)` for a non-negative rational `num / den`,
as integer arithmetic: round half away from zero (JS rounds half up,
which coincides for non-negative values). -/
def jsRound (num den : Nat) : Nat :=
  (2 * num + den) / (2 * den)

/-- The target raster size computed in `handleContainerClick`
(lines 163-177): identity when both dimensions are within
`MAX_DIMENSION`; otherwise the larger dimension is clamped to
`MAX_DIMENSION` and the other scaled proportionally with rounding. -/
def targetSize (videoWidth videoHeight : Nat) : Nat × Nat :=
  if videoWidth > MAX_DIMENSION ∨ videoHeight > MAX_DIMENSION then
    if videoWidth > videoHeight then
      (MAX_DIMENSION, jsRound (videoHeight * MAX_DIMENSION) videoWidth)
    else
      (jsRound (videoWidth * MAX_DIMENSION) videoHeight, MAX_DIMENSION)
  else
    (videoWidth, videoHeight)

/-- Modelled from the spec: "the longer side becomes `MAX_DIMENSION` and
the shorter side becomes round(shorter / longer × MAX_DIMENSION)" when a
dimension exceeds the bound, identity otherwise (no upscaling).  Stated
independently of `targetSize` to be compared with it. -/
def targetSizeSpec (w h : Nat) : Nat × Nat :=
  if w ≤ MAX_DIMENSION ∧ h ≤ MAX_DIMENSION then
    (w, h)
  else if h ≤ w then
    (MAX_DIMENSION, jsRound (h * MAX_DIMENSION) w)
  else
    (jsRound (w * MAX_DIMENSION) h, MAX_DIMENSION)

/-- The region-of-interest ring drawn into the raster
(`handleContainerClick`, lines 186-196). -/
structure Ring where
  centerX : ℚ
  centerY : ℚ
  radius : ℚ
  lineWidth : ℚ
deriving DecidableEq, Repr

/-- The ring parameters computed from the target raster size, the
on-screen rendered size of the video element, and the tap point in
container coordinates. -/
def ringFor (targetWidth targetHeight clientWidth clientHeight x y : ℚ) : Ring :=
  let scaleX := targetWidth / clientWidth
  let scaleY := targetHeight / clientHeight
  { centerX := x * scaleX
    centerY := y * scaleY
    radius := BALL_RADIUS * min scaleX scaleY
    lineWidth := max 2 (4 * min scaleX scaleY) }

/-- JavaScript `String.prototype.trim()`: the string with whitespace
removed from both ends, over the character list. -/
def jsTrim (s : String) : String :=
  String.mk (((s.data.dropWhile Char.isWhitespace).reverse.dropWhile
    Char.isWhitespace).reverse)

/-- `text.charAt(0).toUpperCase() + text.slice(1)` from
geminiService.ts. -/
def capitalizeFirst (s : String) : String :=
  match s.data with
  | [] => s
  | c :: cs => String.mk (c.toUpper :: cs)

/-- `identifyObject` from src/services/geminiService.ts, as a function
of the raw service response: `response = Except.error m` models a
transport/service failure of `generateContent`, `Except.ok raw` a
response whose `text` is `raw`.  The whole body is wrapped in
try/catch: an empty trimmed response throws inside the try and is
re-thrown by the catch with the `AI Error: ` framing, as is every other
error. -/
def identifyObject (response : Except String String) : Except String String :=
  match response with
  | Except.error msg => Except.error ("AI Error: " ++ msg)
  | Except.ok raw =>
    let text := jsTrim raw
    if text = "" then
      Except.error ("AI Error: " ++ "AI returned an empty response.")
    else
      Except.ok (capitalizeFirst text)

/-- The banner text set by `handleContainerClick` when the video element
is missing or not yet decoded (`video.readyState < 2`). -/
def notReadyMessage : Language → String
  | Language.itIT => "La fotocamera non è pronta. Riprova."
  | Language.enUS => "Camera is not ready. Please try again."

/-- The language-specific system instruction bound into the new session
on a successful identification. -/
def systemInstructionFor (l : Language) (w : String) : String :=
  match l with
  | Language.itIT =>
    "Sei un assistente disponibile. L\x27utente ha appena identificato un oggetto: \x27"
      ++ w ++ "\x27. Rispondi alle loro domande su questo oggetto in modo conciso e in italiano."
  | Language.enUS =>
    "You are a helpful assistant. The user has just identified an object: \x27"
      ++ w ++ "\x27. Answer their questions about this object concisely and in English."

/-- The system message naming the identified subject. -/
def chatAboutMessage (l : Language) (w : String) : String :=
  match l with
  | Language.itIT => "Chat sull\x27oggetto: " ++ w
  | Language.enUS => "Chatting about: " ++ w

/-- The bot greeting seeded after a successful identification. -/
def botGreeting (l : Language) (w : String) : String :=
  match l with
  | Language.itIT => "Ho identificato: " ++ w ++ ". Chiedimi pure!"
  | Language.enUS => "I\x27ve identified: " ++ w ++ ". Ask me anything!"

/-- The readiness data of the video element read by
`handleContainerClick`: decode state, intrinsic frame size, and
on-screen rendered size. -/
structure VideoInfo where
  readyState : Nat
  videoWidth : Nat
  videoHeight : Nat
  clientWidth : ℚ
  clientHeight : ℚ
deriving DecidableEq, Repr

/-- What phase 1 of `handleContainerClick` dispatches to the reasoning
service: the raster size and the annotation ring drawn into it. -/
structure DispatchInfo where
  imageSize : Nat × Nat
  ring : Ring
deriving DecidableEq, Repr

/-- Phase 1 of `handleContainerClick` (lines 142-201): the code up to
the `await identifyObject(...)`.  `video = none` models a null
video/canvas/container ref; `x`, `y` are the tap point in container
coordinates.  Returns the updated state and `some` dispatch exactly when
an attempt goes in flight. -/
def clickPhase1 (s : AppState) (video : Option VideoInfo) (x y : ℚ) :
    AppState × Option DispatchInfo :=
  if s.isIdentifying ∨ s.isCameraOn = false then (s, none)
  else
    match video with
    | none => ({ s with error := some (notReadyMessage s.language) }, none)
    | some v =>
      if v.readyState < 2 then
        ({ s with error := some (notReadyMessage s.language) }, none)
      else
        let s1 := { s with
          ballPosition := some (x - BALL_RADIUS, y - BALL_RADIUS)
          isIdentifying := true
          error := none }
        let sz := targetSize v.videoWidth v.videoHeight
        (s1, some ⟨sz, ringFor (sz.1 : ℚ) (sz.2 : ℚ) v.clientWidth v.clientHeight x y⟩)

/-- Phase 2 of `handleContainerClick` (lines 202-228): the continuation
after `await identifyObject(...)` settles with `outcome`.  On success it
speaks the identified word, creates a fresh session bound to it, and
replaces the chat history with the two seed messages; on error it sets
the banner.  The `finally` clause clears the in-flight flag in both
branches.  `lang` is the `language` value captured by the handler's
closure at dispatch time (it may differ from the current state's
language if the language changed while the attempt was in flight). -/
def clickPhase2 (s : AppState) (lang : Language)
    (outcome : Except String String) : AppState :=
  match outcome with
  | Except.ok w =>
    { s with
      spoken := s.spoken ++ [w]
      chat := some ⟨s.nextChatId, systemInstructionFor lang w⟩
      nextChatId := s.nextChatId + 1
      chatHistory :=
        [⟨Sender.system, chatAboutMessage lang w⟩,
         ⟨Sender.bot, botGreeting lang w⟩]
      isIdentifying := false }
  | Except.error msg =>
    { s with
      error := some msg
      isIdentifying := false }

/-- The in-language error text rendered as a bot message by
`handleSendMessage` on a chat failure. -/
def chatErrorText (l : Language) (msg : String) : String :=
  match l with
  | Language.itIT => "Spiacente, si è verificato un errore: " ++ msg
  | Language.enUS => "Sorry, an error occurred: " ++ msg

/-- Phase 1 of `handleSendMessage` (lines 231-237): the guard and the
code up to `await chatRef.current.sendMessage(...)`.  Returns the
updated state and whether a send went in flight. -/
def sendPhase1 (s : AppState) (message : String) : AppState × Bool :=
  if s.chat = none ∨ s.isSendingMessage ∨ jsTrim message = "" then (s, false)
  else
    ({ s with
      isSendingMessage := true
      chatHistory := s.chatHistory ++ [⟨Sender.user, message⟩] }, true)

/-- Phase 2 of `handleSendMessage` (lines 238-251): the continuation
after the send settles.  On success the reply is appended as a bot
message and spoken; on error the in-language error text is appended as a
bot message.  The `finally` clause clears the sending flag.  `lang` is
the closure-captured language. -/
def sendPhase2 (s : AppState) (lang : Language)
    (outcome : Except String String) : AppState :=
  match outcome with
  | Except.ok reply =>
    { s with
      chatHistory := s.chatHistory ++ [⟨Sender.bot, reply⟩]
      spoken := s.spoken ++ [reply]
      isSendingMessage := false }
  | Except.error msg =>
    { s with
      chatHistory := s.chatHistory ++ [⟨Sender.bot, chatErrorText lang msg⟩]
      isSendingMessage := false }

/-- `handleTouchStart` (lines 268-275): with exactly two touches and
known zoom capabilities, records the pinch start state; otherwise
nothing changes.  `dist` is the Euclidean distance between the two touch
points as computed by `getDistance`. -/
def handleTouchStart (s : AppState) (numTouches : Nat) (dist : ℚ) : AppState :=
  if numTouches = 2 ∧ s.zoomCapabilities ≠ none then
    { s with pinchState := some (dist, s.zoom) }
  else s

/-- `handleTouchMove` (lines 277-288): with exactly two touches, an
active pinch and known capability bounds, sets the zoom to the start
zoom scaled by the distance ratio, clamped to the bounds
(`Math.max(min, Math.min(newZoom, max))`); otherwise nothing changes.
`newDistance` is the Euclidean distance between the two current touch
points as computed by `getDistance`. -/
def handleTouchMove (s : AppState) (numTouches : Nat) (newDistance : ℚ) : AppState :=
  match s.pinchState, s.zoomCapabilities with
  | some (startDistance, startZoom), some (mn, mx) =>
    if numTouches = 2 then
      let scale := newDistance / startDistance
      let newZoom := startZoom * scale
      { s with zoom := max mn (min newZoom mx) }
    else s
  | _, _ => s

/-- `handleTouchEnd` (lines 290-292): discards the pinch state. -/
def handleTouchEnd (s : AppState) : AppState :=
  { s with pinchState := none }

/-- A convenient concrete starting state: all `useState` initial values
and null refs, as on first mount of `App`. -/
def baseState : AppState :=
  { isCameraOn := false
    ballPosition := none
    isIdentifying := false
    isSendingMessage := false
    chatHistory := []
    error := none
    language := Language.itIT
    isChatVisible := false
    zoom := 1
    streamOn := false
    chat := none
    nextChatId := 0
    zoomCapabilities := none
    pinchState := none
    spoken := [] }

/-- A ready video element delivering 1280x720 frames rendered at
640x360 on screen. -/
def readyVideo : VideoInfo :=
  { readyState := 4
    videoWidth := 1280
    videoHeight := 720
    clientWidth := 640
    clientHeight := 360 }

/-- When the numerator factor equals the denominator, proportional
rounding returns exactly `MAX_DIMENSION`. -/
lemma jsRound_self (n : Nat) (hn : 0 < n) :
    jsRound (n * MAX_DIMENSION) n = MAX_DIMENSION := by
  unfold jsRound MAX_DIMENSION
  have h : 2 * (n * 512) + n = n * 1025 := by ring
  have h2 : 2 * n = n * 2 := by ring
  rw [h, h2, Nat.mul_div_mul_left 1025 2 hn]

/-- Proportional rounding never exceeds the scaled dimension when the
divisor strictly exceeds `MAX_DIMENSION`. -/
lemma jsRound_le (a l : Nat) (hl : MAX_DIMENSION < l) :
    jsRound (a * MAX_DIMENSION) l ≤ a := by
  unfold jsRound MAX_DIMENSION at *
  have h2l : 0 < 2 * l := by omega
  have h1 : a * 512 ≤ a * l := mul_le_mul_left' (by omega) a
  have h3 : 2 * (a * 512) + l ≤ 2 * (a * l) + l :=
    Nat.add_le_add_right (Nat.mul_le_mul_left 2 h1) l
  have h4 : 2 * (a * l) + l < (a + 1) * (2 * l) := by
    have h5 : (a + 1) * (2 * l) = 2 * (a * l) + 2 * l := by ring
    rw [h5]
    apply Nat.add_lt_add_left
    omega
  have h6 : (2 * (a * 512) + l) / (2 * l) < a + 1 :=
    (Nat.div_lt_iff_lt_mul h2l).mpr (lt_of_le_of_lt h3 h4)
  omega

/-- The target raster size computed by the code agrees with the spec's
description of it (identity within bounds, longer side to
`MAX_DIMENSION` with proportional rounding otherwise). -/
lemma targetSize_eq_spec (w h : Nat) : targetSize w h = targetSizeSpec w h := by
  unfold targetSize targetSizeSpec
  split_ifs with c1 c2 c3 c4 c5 c6 <;> try rfl
  all_goals try omega
  · -- w = h > MAX_DIMENSION: both sides are (MAX_DIMENSION, MAX_DIMENSION)
    have hw : w = h := by omega
    have hpos : 0 < w := by
      unfold MAX_DIMENSION at *
      omega
    subst hw
    rw [jsRound_self w hpos]

/-- Each target dimension is bounded by the corresponding source
dimension: the capture never upscales. -/
lemma targetSize_le (w h : Nat) :
    (targetSize w h).1 ≤ w ∧ (targetSize w h).2 ≤ h := by
  unfold targetSize
  split_ifs with c1 c2
  · constructor
    · show MAX_DIMENSION ≤ w
      unfold MAX_DIMENSION at *
      omega
    · exact jsRound_le h w (by omega)
  · constructor
    · exact jsRound_le w h (by omega)
    · show MAX_DIMENSION ≤ h
      unfold MAX_DIMENSION at *
      omega
  · exact ⟨le_refl w, le_refl h⟩

/-- C7: for every source frame w×h, the target raster equals the frame
when both dimensions are at most 512, and otherwise clamps the longer
side to 512 and rounds the shorter proportionally; no target dimension
exceeds its source dimension; in particular 1280×720 maps to 512×288
and 400×300 is unchanged. -/
theorem c7_target_raster_size (w h : Nat) :
    targetSize w h = targetSizeSpec w h ∧
    (targetSize w h).1 ≤ w ∧ (targetSize w h).2 ≤ h ∧
    targetSize 1280 720 = (512, 288) ∧
    targetSize 400 300 = (400, 300) := by
  refine ⟨targetSize_eq_spec w h, (targetSize_le w h).1, (targetSize_le w h).2, ?_, ?_⟩
  · decide
  · decide

/-- C6: stopping the camera clears the marker, the transcript, the
session, the zoom (to 1) and the zoom capability bounds, turns the
camera flag off, and is idempotent. -/
theorem c6_stop_camera_clears_and_idempotent (s : AppState) :
    (stopCamera s).ballPosition = none ∧
    (stopCamera s).chatHistory = [] ∧
    (stopCamera s).chat = none ∧
    (stopCamera s).zoom = 1 ∧
    (stopCamera s).zoomCapabilities = none ∧
    (stopCamera s).isCameraOn = false ∧
    stopCamera (stopCamera s) = stopCamera s :=
  ⟨rfl, rfl, rfl, rfl, rfl, rfl, rfl⟩

/-- C5 counterexample: the claim says the transcript contains no
messages after a camera (re)start, but a successful start seeds one
system message ("Clicca su un oggetto per identificarlo."), so the
transcript is non-empty. -/
theorem c5_counterexample_restart_seeds_message :
    (startCamera baseState (some none)).chatHistory ≠ [] := by
  decide

/-- C5 (amended): stopping the camera (also via a language change)
clears the transcript to empty and destroys the session with it; a
camera (re)start first clears the transcript and then seeds exactly one
system prompt message on success, and leaves it empty on failure; when
the session is destroyed by replacement on a successful identification,
the transcript is replaced by exactly the two seed messages. -/
theorem c5_amended_transcript_reset (s : AppState) (l : Language)
    (caps : Option (ℚ × ℚ)) (w : String) :
    (stopCamera s).chatHistory = [] ∧
    (stopCamera s).chat = none ∧
    (handleLanguageChange s l).chatHistory = [] ∧
    (startCamera s none).chatHistory = [] ∧
    (startCamera s (some caps)).chatHistory =
      [⟨Sender.system, initialMessage s.language⟩] ∧
    (clickPhase2 s l (Except.ok w)).chatHistory =
      [⟨Sender.system, chatAboutMessage l w⟩, ⟨Sender.bot, botGreeting l w⟩] :=
  ⟨rfl, rfl, rfl, rfl, rfl, rfl⟩

/-- C2: while an identification attempt is in flight
(`isIdentifying = true`), a further tap on the container leaves the
state completely unchanged and dispatches nothing. -/
theorem c2_reentrant_tap_noop (s : AppState) (video : Option VideoInfo)
    (x y : ℚ) (h : s.isIdentifying = true) :
    clickPhase1 s video x y = (s, none) := by
  unfold clickPhase1
  rw [h]
  simp

/-- Witness for C2 at a concrete in-flight state. -/
theorem c2_witness :
    ({ baseState with isIdentifying := true, isCameraOn := true } :
      AppState).isIdentifying = true ∧
    clickPhase1 { baseState with isIdentifying := true, isCameraOn := true }
      (some readyVideo) 5 5 =
      ({ baseState with isIdentifying := true, isCameraOn := true }, none) :=
  ⟨rfl, c2_reentrant_tap_noop _ (some readyVideo) 5 5 rfl⟩

/-- A state with an identification in flight: camera started
successfully, then a tap at (100, 100) on a ready 1280×720 video. -/
def inFlightState : AppState :=
  (clickPhase1 (startCamera baseState (some none)) (some readyVideo) 100 100).1

/-- `inFlightState` after the camera is stopped by a language change
while the attempt is still in flight. -/
def stoppedDuringFlight : AppState :=
  handleLanguageChange inFlightState Language.enUS

/-- `stoppedDuringFlight` after the in-flight attempt's service response
"tazza" finally arrives and its continuation (with the closure-captured
Italian language) runs. -/
def lateResultState : AppState :=
  clickPhase2 stoppedDuringFlight Language.itIT (identifyObject (Except.ok "tazza"))

/-- C1 (code-bug evidence): stopping the camera while an identification
is in flight does not discard the attempt.  After the stop the session
is gone and the transcript empty, but when the late service response
arrives its continuation still creates a new session, writes the two
seed messages into the transcript, and speaks the identified word. -/
theorem c1_late_result_applied_after_stop :
    inFlightState.isIdentifying = true ∧
    stoppedDuringFlight.chat = none ∧
    stoppedDuringFlight.chatHistory = [] ∧
    stoppedDuringFlight.isCameraOn = false ∧
    lateResultState.chat ≠ none ∧
    lateResultState.chatHistory =
      [⟨Sender.system, "Chat sull\x27oggetto: Tazza"⟩,
       ⟨Sender.bot, "Ho identificato: Tazza. Chiedimi pure!"⟩] ∧
    lateResultState.spoken = ["Tazza"] := by
  refine ⟨?_, ?_, ?_, ?_, ?_, ?_, ?_⟩ <;> decide

/-- C3: any identification attempt whose service response is non-empty
after trimming reaches the bound state: the label is the trimmed
response with its first character uppercased, it is spoken, the session
is replaced with a fresh handle distinct from the prior one, and the
transcript becomes exactly the system message naming the subject
followed by the bot greeting. -/
theorem c3_successful_identification (s : AppState) (raw : String)
    (hraw : jsTrim raw ≠ "")
    (hfresh : ∀ c : ChatSession, s.chat = some c → c.id < s.nextChatId) :
    identifyObject (Except.ok raw) = Except.ok (capitalizeFirst (jsTrim raw)) ∧
    (clickPhase2 s s.language (identifyObject (Except.ok raw))).chatHistory =
      [⟨Sender.system, chatAboutMessage s.language (capitalizeFirst (jsTrim raw))⟩,
       ⟨Sender.bot, botGreeting s.language (capitalizeFirst (jsTrim raw))⟩] ∧
    (clickPhase2 s s.language (identifyObject (Except.ok raw))).spoken =
      s.spoken ++ [capitalizeFirst (jsTrim raw)] ∧
    (clickPhase2 s s.language (identifyObject (Except.ok raw))).chat =
      some ⟨s.nextChatId,
        systemInstructionFor s.language (capitalizeFirst (jsTrim raw))⟩ ∧
    (clickPhase2 s s.language (identifyObject (Except.ok raw))).chat ≠ s.chat ∧
    (clickPhase2 s s.language (identifyObject (Except.ok raw))).isIdentifying
      = false := by
  have hio : identifyObject (Except.ok raw)
      = Except.ok (capitalizeFirst (jsTrim raw)) := by
    unfold identifyObject
    simp [hraw]
  rw [hio]
  refine ⟨rfl, rfl, rfl, rfl, ?_, rfl⟩
  intro heq
  have hid := hfresh ⟨s.nextChatId,
    systemInstructionFor s.language (capitalizeFirst (jsTrim raw))⟩ heq.symm
  exact absurd hid (Nat.lt_irrefl s.nextChatId)

/-- Witness for C3 at the initial state with response " tazza ". -/
theorem c3_witness :
    (clickPhase2 baseState baseState.language
      (identifyObject (Except.ok " tazza "))).chat ≠ baseState.chat :=
  (c3_successful_identification baseState " tazza " (by decide)
    (fun _ hc => Option.noConfusion hc)).2.2.2.2.1

/-- C4: a failed identification (empty trimmed response or
transport/service error) surfaces the error in the banner while leaving
the transcript, the bound session and the marker untouched; the error
is not appended to the transcript. -/
theorem c4_failed_identification (s : AppState) (lang : Language)
    (raw msg : String) :
    (jsTrim raw = "" →
      identifyObject (Except.ok raw) =
        Except.error ("AI Error: " ++ "AI returned an empty response.")) ∧
    identifyObject (Except.error msg) = Except.error ("AI Error: " ++ msg) ∧
    (clickPhase2 s lang (Except.error msg)).error = some msg ∧
    (clickPhase2 s lang (Except.error msg)).chatHistory = s.chatHistory ∧
    (clickPhase2 s lang (Except.error msg)).chat = s.chat ∧
    (clickPhase2 s lang (Except.error msg)).ballPosition = s.ballPosition ∧
    (clickPhase2 s lang (Except.error msg)).isIdentifying = false := by
  refine ⟨?_, rfl, rfl, rfl, rfl, rfl, rfl⟩
  intro h
  unfold identifyObject
  simp [h]

/-- Witness for C4: a whitespace-only response fails, and an error
outcome leaves the transcript of a concrete state unchanged. -/
theorem c4_witness :
    identifyObject (Except.ok "   ") =
      Except.error ("AI Error: " ++ "AI returned an empty response.") ∧
    (clickPhase2 baseState Language.itIT (Except.error "boom")).chatHistory
      = baseState.chatHistory :=
  ⟨(c4_failed_identification baseState Language.itIT "   " "boom").1 (by decide),
   (c4_failed_identification baseState Language.itIT "   " "boom").2.2.2.1⟩

/-- C8: the ring is centered at the tap point scaled independently per
axis by raster/on-screen ratios, its radius is 32 px scaled by the
minimum ratio, its stroke width is at least 2 px, and a 300×300
container scaled to a 150×150 raster maps a tap at (150,150) to center
(75,75). -/
theorem c8_ring_mapping (tw th cw ch x y : ℚ) :
    (ringFor tw th cw ch x y).centerX = x * (tw / cw) ∧
    (ringFor tw th cw ch x y).centerY = y * (th / ch) ∧
    (ringFor tw th cw ch x y).radius = 32 * min (tw / cw) (th / ch) ∧
    2 ≤ (ringFor tw th cw ch x y).lineWidth ∧
    ringFor 150 150 300 300 150 150 =
      { centerX := 75, centerY := 75, radius := 16, lineWidth := 2 } := by
  refine ⟨rfl, rfl, ?_, ?_, ?_⟩
  · show BALL_RADIUS * _ = _
    norm_num [BALL_RADIUS, BALL_DIAMETER]
  · exact le_max_left 2 _
  · unfold ringFor BALL_RADIUS BALL_DIAMETER
    norm_num

/-- C9: during an active two-finger pinch with known capability bounds,
a move to `d` sets the zoom to `startZoom × (d / startDistance)` clamped
to the bounds; with no active gesture or unknown bounds nothing changes;
with start distance 100, start zoom 2 and bounds [1, 5], distance 150
yields zoom 3 and distance 500 yields zoom 5. -/
theorem c9_pinch_zoom (s : AppState) (d0 z0 mn mx d : ℚ)
    (hp : s.pinchState = some (d0, z0))
    (hc : s.zoomCapabilities = some (mn, mx)) :
    (handleTouchMove s 2 d).zoom = max mn (min (z0 * (d / d0)) mx) ∧
    (∀ (s2 : AppState) (n : Nat) (dist : ℚ),
      s2.pinchState = none ∨ s2.zoomCapabilities = none →
      handleTouchMove s2 n dist = s2) ∧
    (handleTouchMove { baseState with
        pinchState := some (100, 2)
        zoomCapabilities := some (1, 5) } 2 150).zoom = 3 ∧
    (handleTouchMove { baseState with
        pinchState := some (100, 2)
        zoomCapabilities := some (1, 5) } 2 500).zoom = 5 := by
  refine ⟨?_, ?_, ?_, ?_⟩
  · simp [handleTouchMove, hp, hc]
  · rintro s2 n dist (h | h)
    · simp [handleTouchMove, h]
    · rcases hps : s2.pinchState with _ | p
      · simp [handleTouchMove, hps]
      · rcases p with ⟨a, b⟩
        simp [handleTouchMove, hps, h]
  · simp [handleTouchMove, baseState]
    norm_num
  · simp [handleTouchMove, baseState]
    norm_num

/-- Witness for C9 at a concrete pinch state. -/
theorem c9_witness :
    (handleTouchMove { baseState with
        pinchState := some (100, 2)
        zoomCapabilities := some (1, 5) } 2 150).zoom
      = max 1 (min (2 * ((150 : ℚ) / 100)) 5) :=
  (c9_pinch_zoom _ 100 2 1 5 150 rfl rfl).1

/-- C10: sending a message is a no-op when no session is bound, a prior
send is in flight, or the text is blank after trimming; otherwise
exactly the user message is appended followed by exactly one bot
message: the service reply on success, the in-language error text on
failure. -/
theorem c10_send_message (s : AppState) (msg : String)
    (outcome : Except String String) :
    ((s.chat = none ∨ s.isSendingMessage = true ∨ jsTrim msg = "") →
      sendPhase1 s msg = (s, false)) ∧
    (s.chat ≠ none → s.isSendingMessage = false → jsTrim msg ≠ "" →
      (sendPhase1 s msg).2 = true ∧
      (sendPhase2 (sendPhase1 s msg).1 s.language outcome).chatHistory =
        s.chatHistory ++ [⟨Sender.user, msg⟩,
          ⟨Sender.bot,
            match outcome with
            | Except.ok reply => reply
            | Except.error m => chatErrorText s.language m⟩] ∧
      (sendPhase2 (sendPhase1 s msg).1 s.language outcome).isSendingMessage
        = false) := by
  constructor
  · intro h
    have hcond : s.chat = none ∨ s.isSendingMessage ∨ jsTrim msg = "" := by
      rcases h with h | h | h
      · exact Or.inl h
      · exact Or.inr (Or.inl h)
      · exact Or.inr (Or.inr h)
    unfold sendPhase1
    rw [if_pos hcond]
  · intro h1 h2 h3
    have hcond : ¬(s.chat = none ∨ s.isSendingMessage ∨ jsTrim msg = "") := by
      rintro (h | h | h)
      · exact h1 h
      · rw [h2] at h
        exact Bool.noConfusion h
      · exact h3 h
    unfold sendPhase1
    rw [if_neg hcond]
    cases outcome with
    | ok reply =>
      refine ⟨rfl, ?_, rfl⟩
      simp [sendPhase2]
    | error m =>
      refine ⟨rfl, ?_, rfl⟩
      simp [sendPhase2]

/-- Witness for C10: with a bound session and a non-blank message, the
user message and the bot reply are appended in order. -/
theorem c10_witness :
    (sendPhase2 (sendPhase1 { baseState with chat := some ⟨0, "instr"⟩ } "ciao").1
        ({ baseState with chat := some ⟨0, "instr"⟩ } : AppState).language
        (Except.ok "reply")).chatHistory =
      ({ baseState with chat := some ⟨0, "instr"⟩ } : AppState).chatHistory ++
        [⟨Sender.user, "ciao"⟩, ⟨Sender.bot, "reply"⟩] :=
  ((c10_send_message { baseState with chat := some ⟨0, "instr"⟩ } "ciao"
      (Except.ok "reply")).2 (by decide) rfl (by decide)).2.1

end ObjectIdentifier
